import Mathlib

/-!
Verification of the preset store of `voicevox_engine/preset/Preset.py`.

The Python module is shallowly embedded below.  Python `float` values that
the store merely carries around (the scale fields and the file modification
time) are modelled as `ℚ`: the store never performs arithmetic on them, so
the embedding is exact for every claim considered here.  `StyleId` (defined
in `voicevox_engine/metas/Metas.py`, not part of the sources) is an opaque
integer identifier, modelled as `Int`.

File-system interaction is modelled by an `Env` record describing, for one
public operation, the outcome of `Path.stat` (`statResult`), the parsed
content of the backing file were it read (`readContent`), and the outcome of
`_write_on_file` (`writeError`, `none` meaning success).  Each public
operation returns the Python result (`Except` of the raised error or the
return value) together with the manager state observable after the call —
also on the error paths, where Python leaves the mutated object behind.
-/

/-- Model of `Preset` (pydantic model, Preset.py lines 11-62).  The pydantic class
declares `Field(...)` metadata only — titles and descriptions, no range
constraints — so the record carries plain values. -/
structure Preset where
  id : Int
  name : String
  speaker_uuid : String
  style_id : Int
  speedScale : ℚ
  intonationScale : ℚ
  tempoDynamicsScale : ℚ
  pitchScale : ℚ
  volumeScale : ℚ
  prePhonemeLength : ℚ
  postPhonemeLength : ℚ
deriving DecidableEq, Repr

instance : Inhabited Preset :=
  ⟨⟨0, "", "", 0, 1, 1, 1, 0, 1, 0, 0⟩⟩

/-- A raw mapping as obtained from `yaml.safe_load` for one list item:
each pydantic field is either present (`some`) or absent (`none`).
`tempoDynamicsScale` is the only field with a pydantic default. -/
structure RawPreset where
  id : Option Int
  name : Option String
  speaker_uuid : Option String
  style_id : Option Int
  speedScale : Option ℚ
  intonationScale : Option ℚ
  tempoDynamicsScale : Option ℚ
  pitchScale : Option ℚ
  volumeScale : Option ℚ
  prePhonemeLength : Option ℚ
  postPhonemeLength : Option ℚ
deriving DecidableEq, Repr

/-- Pydantic validation of one `Preset` from a raw mapping: every field
except `tempoDynamicsScale` is required; `tempoDynamicsScale` defaults to
`1.0` when absent (Preset.py lines 37-45).  No numeric range is checked —
the `Field` declarations carry documentation only. -/
def Preset.validate (r : RawPreset) : Option Preset :=
  match r.id, r.name, r.speaker_uuid, r.style_id, r.speedScale,
      r.intonationScale, r.pitchScale, r.volumeScale,
      r.prePhonemeLength, r.postPhonemeLength with
  | some i, some n, some su, some st, some sp, some it, some pi, some vo,
      some pre, some post =>
    some ⟨i, n, su, st, sp, it, r.tempoDynamicsScale.getD 1, pi, vo, pre, post⟩
  | _, _, _, _, _, _, _, _, _, _ => none

/-- Model of `preset.model_dump()`: serialize every field (Preset.py line 213). -/
def Preset.model_dump (p : Preset) : RawPreset :=
  ⟨some p.id, some p.name, some p.speaker_uuid, some p.style_id,
   some p.speedScale, some p.intonationScale, some p.tempoDynamicsScale,
   some p.pitchScale, some p.volumeScale, some p.prePhonemeLength,
   some p.postPhonemeLength⟩

/-- Model of `parse_obj_as(list[Preset], obj)`: validate every item; any item
failing validation raises `ValidationError` (modelled as `none`). -/
def parseObjAsPresetList (objs : List RawPreset) : Option (List Preset) :=
  objs.mapM Preset.validate

/-- Raw Python exceptions that can cross the store's boundary. -/
inductive PyError where
  | fileNotFound
  | valueError
  | yamlError
  | otherError (code : Nat)
deriving DecidableEq, Repr

/-- Errors observable from a public operation: the store's two exception
classes (Preset.py lines 65-74) and re-raised raw Python errors. -/
inductive StoreError where
  | presetInternalError (msg : String)
  | presetInputError (msg : String)
  | pyError (e : PyError)
deriving DecidableEq, Repr

instance {ε α : Type} [DecidableEq ε] [DecidableEq α] :
    DecidableEq (Except ε α) :=
  fun a b =>
    match a, b with
    | .error e1, .error e2 =>
      match decEq e1 e2 with
      | isTrue h => isTrue (by rw [h])
      | isFalse h => isFalse (by intro hc; cases hc; exact h rfl)
    | .error _, .ok _ => isFalse (by intro hc; cases hc)
    | .ok _, .error _ => isFalse (by intro hc; cases hc)
    | .ok a1, .ok a2 =>
      match decEq a1 a2 with
      | isTrue h => isTrue (by rw [h])
      | isFalse h => isFalse (by intro hc; cases hc; exact h rfl)

/-- Parsed content of the backing YAML file:
`nullDoc` — `yaml.safe_load` returns `None` (empty document);
`doc objs` — the document is a YAML sequence of mappings;
`notAList` — the document loads but is not a sequence, so
`parse_obj_as(list[Preset], ·)` raises `ValidationError`;
`yamlBroken` — `yaml.safe_load` itself raises (uncaught in the source). -/
inductive FileContent where
  | nullDoc
  | doc (objs : List RawPreset)
  | notAList
  | yamlBroken
deriving DecidableEq, Repr

/-- The file-system behaviour seen by one public operation. -/
structure Env where
  statResult : Option ℚ
  readContent : FileContent
  writeError : Option PyError
deriving DecidableEq, Repr

/-- State of `PresetManager`: the cache and the modification-time watermark
(Preset.py lines 85-89; the path is part of the environment). -/
structure PresetManager where
  presets : List Preset
  last_modified_time : ℚ
deriving DecidableEq, Repr

/-- Model of `PresetManager.__init__`: empty cache, watermark `0.0`. -/
def PresetManager.new : PresetManager := ⟨[], 0⟩

/-- Python `max` over a list of integers: raises `ValueError` on an empty
sequence. -/
def pyMax (l : List Int) : Except StoreError Int :=
  match l with
  | [] => .error (.pyError .valueError)
  | x :: xs => .ok (xs.foldl max x)

/-- Model of `PresetManager._refresh_cache` (Preset.py lines 91-121).  On every
error path the manager is unchanged: the cache and watermark are replaced
only after all checks pass. -/
def refresh_cache (env : Env) (m : PresetManager) :
    Except StoreError PresetManager :=
  match env.statResult with
  | none => .error (.presetInternalError "プリセットの設定ファイルが見つかりません")
  | some t =>
    if t = m.last_modified_time then .ok m
    else
      match env.readContent with
      | .yamlBroken => .error (.pyError .yamlError)
      | .nullDoc => .error (.presetInternalError "プリセットの設定ファイルが空の内容です")
      | .notAList => .error (.presetInternalError "プリセットの設定ファイルにミスがあります")
      | .doc objs =>
        match parseObjAsPresetList objs with
        | none => .error (.presetInternalError "プリセットの設定ファイルにミスがあります")
        | some ps =>
          if (ps.map Preset.id).length ≠ ((ps.map Preset.id).dedup).length
          then .error (.presetInternalError "プリセットのidに重複があります")
          else .ok { presets := ps, last_modified_time := t }

/-- Model of `PresetManager.add_preset` (Preset.py lines 123-145).  Returns the
Python result and the manager state after the call. -/
def add_preset (env : Env) (m : PresetManager) (p : Preset) :
    Except StoreError Int × PresetManager :=
  match refresh_cache env m with
  | .error e => (.error e, m)
  | .ok m1 =>
    let ids := m1.presets.map Preset.id
    match (if p.id < 0 ∨ p.id ∈ ids then
        (pyMax ids).map (fun v => { p with id := v + 1 })
      else .ok p : Except StoreError Preset) with
    | .error e => (.error e, m1)
    | .ok p1 =>
      let m2 : PresetManager := { m1 with presets := m1.presets ++ [p1] }
      match env.writeError with
      | none => (.ok p1.id, m2)
      | some PyError.fileNotFound =>
        (.error (.presetInternalError "プリセットの設定ファイルが見つかりません"),
         { m2 with presets := m2.presets.dropLast })
      | some e =>
        (.error (.pyError e), { m2 with presets := m2.presets.dropLast })

/-- Model of `PresetManager.load_presets` (Preset.py lines 147-153): refresh, then
return `self.presets` (the cache list itself; aliasing is studied in the
object-level model below). -/
def load_presets (env : Env) (m : PresetManager) :
    Except StoreError (List Preset) × PresetManager :=
  match refresh_cache env m with
  | .error e => (.error e, m)
  | .ok m1 => (.ok m1.presets, m1)

/-- Python `list.insert i x`: insert before index `i` (appends when `i`
is past the end). -/
def listInsertAt (l : List Preset) (i : Nat) (x : Preset) : List Preset :=
  l.take i ++ x :: l.drop i

/-- Model of `PresetManager.update_preset` (Preset.py lines 155-181).  The loop
replaces the first entry whose id matches; `for … else` raises when no
entry matches.  On any write failure the previous entry is restored at its
position; `FileNotFoundError` is re-raised as `PresetInternalError`, every
other error is re-raised as itself. -/
def update_preset (env : Env) (m : PresetManager) (p : Preset) :
    Except StoreError Int × PresetManager :=
  match refresh_cache env m with
  | .error e => (.error e, m)
  | .ok m1 =>
    match m1.presets.findIdx? (fun q => q.id == p.id) with
    | none => (.error (.presetInputError "更新先のプリセットが存在しません"), m1)
    | some k =>
      let prev := m1.presets.getD k default
      let m2 : PresetManager := { m1 with presets := m1.presets.set k p }
      match env.writeError with
      | none => (.ok p.id, m2)
      | some PyError.fileNotFound =>
        (.error (.presetInternalError "プリセットの設定ファイルが見つかりません"),
         { m2 with presets := m2.presets.set k prev })
      | some e =>
        (.error (.pyError e), { m2 with presets := m2.presets.set k prev })

/-- Model of `PresetManager.delete_preset` (Preset.py lines 183-207).  The loop
pops the first entry whose id matches.  NOTE: unlike `add_preset` and
`update_preset`, the write step is guarded by `except FileNotFoundError`
only — any other write error propagates with the entry still removed. -/
def delete_preset (env : Env) (m : PresetManager) (i : Int) :
    Except StoreError Int × PresetManager :=
  match refresh_cache env m with
  | .error e => (.error e, m)
  | .ok m1 =>
    match m1.presets.findIdx? (fun q => q.id == i) with
    | none => (.error (.presetInputError "削除対象のプリセットが存在しません"), m1)
    | some k =>
      let buf := m1.presets.getD k default
      let m2 : PresetManager := { m1 with presets := m1.presets.eraseIdx k }
      match env.writeError with
      | none => (.ok i, m2)
      | some PyError.fileNotFound =>
        (.error (.presetInternalError "プリセットの設定ファイルが見つかりません"),
         { m2 with presets := listInsertAt m2.presets k buf })
      | some e => (.error (.pyError e), m2)

/-- Model of `PresetManager._write_on_file` (Preset.py lines 209-217): the whole
cache is serialized, in order, one `model_dump` mapping per preset. -/
def write_on_file (presets : List Preset) : FileContent :=
  .doc (presets.map Preset.model_dump)

/-!
Object-level model.  Two of the claims are about Python object identity:
`load_presets` returns `self.presets` itself (not a copy), and
`add_preset` assigns `preset.id` on the caller's object before appending
that very object.  To state these, Python's heap is made explicit: preset
objects and list objects live in cells addressed by `Nat`; Python
variables and list elements hold addresses.
-/

/-- A heap of Python objects: preset cells and list-of-preset cells.  A
list cell holds the addresses of the preset objects it contains. -/
structure PyHeap where
  presetCells : List Preset
  listCells : List (List Nat)
deriving DecidableEq, Repr

/-- Dereference a preset address. -/
def PyHeap.getPreset (h : PyHeap) (a : Nat) : Preset :=
  h.presetCells.getD a default

/-- Dereference a list address. -/
def PyHeap.getList (h : PyHeap) (a : Nat) : List Nat :=
  h.listCells.getD a []

/-- In-place mutation of a preset object (e.g. `preset.id = …`). -/
def PyHeap.setPreset (h : PyHeap) (a : Nat) (p : Preset) : PyHeap :=
  { h with presetCells := h.presetCells.set a p }

/-- In-place mutation of a list object (e.g. `append`, `pop`). -/
def PyHeap.setList (h : PyHeap) (a : Nat) (l : List Nat) : PyHeap :=
  { h with listCells := h.listCells.set a l }

/-- Allocate fresh preset objects, returning their addresses. -/
def PyHeap.allocPresets (h : PyHeap) (ps : List Preset) : PyHeap × List Nat :=
  ({ h with presetCells := h.presetCells ++ ps },
   (List.range ps.length).map (· + h.presetCells.length))

/-- Allocate a fresh list object, returning its address. -/
def PyHeap.allocList (h : PyHeap) (l : List Nat) : PyHeap × Nat :=
  ({ h with listCells := h.listCells ++ [l] }, h.listCells.length)

/-- State of `PresetManager` in the object model: `self.presets` is a
reference to a list object. -/
structure PresetManagerObj where
  presetsRef : Nat
  last_modified_time : ℚ
deriving DecidableEq, Repr

/-- Model of `_refresh_cache` in the object model: `self.presets = _presets`
rebinds the attribute to a freshly allocated list of freshly allocated
preset objects. -/
def refresh_cache_obj (env : Env) (h : PyHeap) (m : PresetManagerObj) :
    Except StoreError Unit × PyHeap × PresetManagerObj :=
  match env.statResult with
  | none =>
    (.error (.presetInternalError "プリセットの設定ファイルが見つかりません"), h, m)
  | some t =>
    if t = m.last_modified_time then (.ok (), h, m)
    else
      match env.readContent with
      | .yamlBroken => (.error (.pyError .yamlError), h, m)
      | .nullDoc =>
        (.error (.presetInternalError "プリセットの設定ファイルが空の内容です"), h, m)
      | .notAList =>
        (.error (.presetInternalError "プリセットの設定ファイルにミスがあります"), h, m)
      | .doc objs =>
        match parseObjAsPresetList objs with
        | none =>
          (.error (.presetInternalError "プリセットの設定ファイルにミスがあります"), h, m)
        | some ps =>
          if (ps.map Preset.id).length ≠ ((ps.map Preset.id).dedup).length
          then (.error (.presetInternalError "プリセットのidに重複があります"), h, m)
          else
            let alloc := h.allocPresets ps
            let alloc2 := alloc.1.allocList alloc.2
            (.ok (), alloc2.1,
             { presetsRef := alloc2.2, last_modified_time := t })

/-- Model of `load_presets` in the object model: `return self.presets` hands the
caller the address of the cache list itself. -/
def load_presets_obj (env : Env) (h : PyHeap) (m : PresetManagerObj) :
    Except StoreError Nat × PyHeap × PresetManagerObj :=
  match refresh_cache_obj env h m with
  | (.error e, h1, m1) => (.error e, h1, m1)
  | (.ok _, h1, m1) => (.ok m1.presetsRef, h1, m1)

/-- Model of `add_preset` in the object model.  The caller passes the address `a`
of its preset object; `preset.id = max(…) + 1` mutates that object in
place, and `self.presets.append(preset)` appends the address `a` itself.
The rollback `self.presets.pop()` drops the last address. -/
def add_preset_obj (env : Env) (h : PyHeap) (m : PresetManagerObj) (a : Nat) :
    Except StoreError Int × PyHeap × PresetManagerObj :=
  match refresh_cache_obj env h m with
  | (.error e, h1, m1) => (.error e, h1, m1)
  | (.ok _, h1, m1) =>
    let cacheAddrs := h1.getList m1.presetsRef
    let ids := cacheAddrs.map (fun b => (h1.getPreset b).id)
    let p := h1.getPreset a
    match (if p.id < 0 ∨ p.id ∈ ids then
        (pyMax ids).map (fun v => h1.setPreset a { p with id := v + 1 })
      else .ok h1 : Except StoreError PyHeap) with
    | .error e => (.error e, h1, m1)
    | .ok h2 =>
      let h3 := h2.setList m1.presetsRef (cacheAddrs ++ [a])
      match env.writeError with
      | none => (.ok (h2.getPreset a).id, h3, m1)
      | some PyError.fileNotFound =>
        (.error (.presetInternalError "プリセットの設定ファイルが見つかりません"),
         h3.setList m1.presetsRef ((h3.getList m1.presetsRef).dropLast), m1)
      | some e =>
        (.error (.pyError e),
         h3.setList m1.presetsRef ((h3.getList m1.presetsRef).dropLast), m1)

/-!
Sample records and operation sequences used by the concrete scenarios
and by the uniqueness invariant over sequences of operations.
-/

/-- A concrete valid preset (all numeric fields inside the documented
ranges). -/
def presetA : Preset := ⟨0, "A", "uuid-a", 1, 1, 1, 1, 0, 1, 0, 0⟩

/-- A second concrete valid preset with a distinct id. -/
def presetB : Preset := ⟨1, "B", "uuid-a", 2, 2, 1, 1, 0, 1, 0, 0⟩

/-- One public mutating operation of the store. -/
inductive StoreOp where
  | add (p : Preset)
  | update (p : Preset)
  | delete (i : Int)
deriving Repr

/-- Run one mutating operation under a file-system behaviour. -/
def runOp (e : Env) (o : StoreOp) (m : PresetManager) :
    Except StoreError Int × PresetManager :=
  match o with
  | .add p => add_preset e m p
  | .update p => update_preset e m p
  | .delete i => delete_preset e m i

/-- Run a sequence of mutating operations, each under its own file-system
behaviour, keeping the manager state the caller observes after each call. -/
def runSeq : List (Env × StoreOp) → PresetManager → PresetManager
  | [], m => m
  | s :: rest, m => runSeq rest (runOp s.1 s.2 m).2

/-- Whether a Python call returned normally. -/
def callOk (r : Except StoreError Int) : Bool :=
  match r with
  | .ok _ => true
  | .error _ => false

/-- Every operation of the sequence returns normally when run in order. -/
def seqOk : List (Env × StoreOp) → PresetManager → Bool
  | [], _ => true
  | s :: rest, m => callOk (runOp s.1 s.2 m).1 && seqOk rest (runOp s.1 s.2 m).2

/-!
Helper lemmas shared by the claim theorems.
-/

/-- A list of integers whose length equals the length of its dedup has no
duplicates — this is exactly the uniqueness test of `_refresh_cache`. -/
theorem nodup_of_length_eq_dedup (l : List Int)
    (h : l.length = l.dedup.length) : l.Nodup := by
  have hs := List.dedup_sublist l
  have he : l.dedup = l := hs.eq_of_length h.symm
  have := List.nodup_dedup l
  rwa [he] at this

/-- The initial value is bounded by a `foldl max`. -/
theorem init_le_foldl_max (l : List Int) (x : Int) : x ≤ l.foldl max x := by
  induction l generalizing x with
  | nil => exact le_refl x
  | cons y ys ih =>
    exact le_trans (le_max_left x y) (ih (max x y))

/-- Every member of the list is bounded by a `foldl max`. -/
theorem mem_le_foldl_max (l : List Int) (x a : Int) (ha : a ∈ l) :
    a ≤ l.foldl max x := by
  induction l generalizing x with
  | nil => cases ha
  | cons y ys ih =>
    rcases List.mem_cons.1 ha with rfl | h
    · exact le_trans (le_max_right x a) (init_le_foldl_max ys (max x a))
    · exact ih (max x y) h

/-- When Python's `max` returns a value, it bounds every member of the
sequence. -/
theorem pyMax_ok_le {l : List Int} {v : Int} (h : pyMax l = .ok v) :
    ∀ a ∈ l, a ≤ v := by
  match l with
  | [] => simp [pyMax] at h
  | x :: xs =>
    simp only [pyMax, Except.ok.injEq] at h
    intro a ha
    rcases List.mem_cons.1 ha with rfl | hmem
    · exact h ▸ init_le_foldl_max xs a
    · exact h ▸ mem_le_foldl_max xs x a hmem

/-- Writing back the element already at a position leaves a list
unchanged. -/
theorem set_getElem_self {α : Type} (l : List α) (k : Nat)
    (h : k < l.length) : l.set k l[k] = l := by
  apply List.ext_getElem
  · simp
  · intro i h1 h2
    rcases eq_or_ne k i with rfl | hne
    · simp
    · simp [List.getElem_set_ne hne]

/-- A successful `_refresh_cache` preserves id-uniqueness of the cache:
the fresh path keeps the cache, the reload path installs a sequence that
passed the uniqueness test. -/
theorem refresh_cache_ok_nodup {env : Env} {m m1 : PresetManager}
    (href : refresh_cache env m = .ok m1)
    (h : (m.presets.map Preset.id).Nodup) :
    (m1.presets.map Preset.id).Nodup := by
  unfold refresh_cache at href
  split at href
  · simp at href
  · split at href
    · rw [Except.ok.injEq] at href
      rwa [← href]
    · split at href
      · simp at href
      · simp at href
      · simp at href
      · split at href
        · simp at href
        · split at href
          · simp at href
          · rw [Except.ok.injEq] at href
            subst href
            rename_i ps _ hlen
            rw [not_ne_iff] at hlen
            exact nodup_of_length_eq_dedup _ hlen

/-- Characterization of a successful `add_preset`: the refresh succeeded,
the write succeeded, and the appended record carries an id that is not
already in the (refreshed) cache — either the caller's checked-fresh id or
`max(ids) + 1`. -/
theorem add_preset_ok_shape {env : Env} {m m2 : PresetManager} {p : Preset}
    {v : Int} (h : add_preset env m p = (.ok v, m2)) :
    ∃ m1 p1, refresh_cache env m = .ok m1 ∧
      env.writeError = none ∧
      p1.id ∉ m1.presets.map Preset.id ∧
      v = p1.id ∧
      m2 = { m1 with presets := m1.presets ++ [p1] } := by
  cases hm1 : refresh_cache env m with
  | error e => simp only [add_preset, hm1] at h; simp at h
  | ok m1 =>
    simp only [add_preset, hm1] at h
    by_cases hcond : p.id < 0 ∨ p.id ∈ m1.presets.map Preset.id
    · rw [if_pos hcond] at h
      cases hmax : pyMax (m1.presets.map Preset.id) with
      | error e => simp only [hmax, Except.map] at h; simp at h
      | ok w =>
        simp only [hmax, Except.map] at h
        cases hw : env.writeError with
        | none =>
          simp only [hw, Prod.mk.injEq, Except.ok.injEq] at h
          refine ⟨m1, { p with id := w + 1 }, rfl, rfl, ?_, h.1.symm, h.2.symm⟩
          intro hmem
          have hle : (w + 1 : Int) ≤ w := by
            simpa using pyMax_ok_le hmax _ hmem
          omega
        | some e => cases e <;> (simp only [hw] at h; simp at h)
    · rw [if_neg hcond] at h
      cases hw : env.writeError with
      | none =>
        simp only [hw, Prod.mk.injEq, Except.ok.injEq] at h
        exact ⟨m1, p, rfl, rfl, (not_or.1 hcond).2, h.1.symm, h.2.symm⟩
      | some e => cases e <;> (simp only [hw] at h; simp at h)

/-- Characterization of a successful `update_preset`: refresh and write
succeeded and the entry at the first position whose id matches was
replaced by the caller's record. -/
theorem update_preset_ok_shape {env : Env} {m m2 : PresetManager}
    {p : Preset} {v : Int} (h : update_preset env m p = (.ok v, m2)) :
    ∃ m1 k, refresh_cache env m = .ok m1 ∧
      env.writeError = none ∧
      m1.presets.findIdx? (fun q => q.id == p.id) = some k ∧
      v = p.id ∧
      m2 = { m1 with presets := m1.presets.set k p } := by
  cases hm1 : refresh_cache env m with
  | error e => simp only [update_preset, hm1] at h; simp at h
  | ok m1 =>
    simp only [update_preset, hm1] at h
    cases hk : m1.presets.findIdx? (fun q => q.id == p.id) with
    | none => simp only [hk] at h; simp at h
    | some k =>
      simp only [hk] at h
      cases hw : env.writeError with
      | none =>
        simp only [hw, Prod.mk.injEq, Except.ok.injEq] at h
        exact ⟨m1, k, rfl, rfl, hk, h.1.symm, h.2.symm⟩
      | some e => cases e <;> (simp only [hw] at h; simp at h)

/-- Characterization of a successful `delete_preset`: refresh and write
succeeded and the entry at the first position whose id matches was
removed. -/
theorem delete_preset_ok_shape {env : Env} {m m2 : PresetManager} {i : Int}
    {v : Int} (h : delete_preset env m i = (.ok v, m2)) :
    ∃ m1 k, refresh_cache env m = .ok m1 ∧
      env.writeError = none ∧
      m1.presets.findIdx? (fun q => q.id == i) = some k ∧
      v = i ∧
      m2 = { m1 with presets := m1.presets.eraseIdx k } := by
  cases hm1 : refresh_cache env m with
  | error e => simp only [delete_preset, hm1] at h; simp at h
  | ok m1 =>
    simp only [delete_preset, hm1] at h
    cases hk : m1.presets.findIdx? (fun q => q.id == i) with
    | none => simp only [hk] at h; simp at h
    | some k =>
      simp only [hk] at h
      cases hw : env.writeError with
      | none =>
        simp only [hw, Prod.mk.injEq, Except.ok.injEq] at h
        exact ⟨m1, k, rfl, rfl, hk, h.1.symm, h.2.symm⟩
      | some e => cases e <;> (simp only [hw] at h; simp at h)

/-- A successful `add_preset` preserves id-uniqueness of the cache. -/
theorem add_preset_ok_nodup {env : Env} {m m2 : PresetManager} {p : Preset}
    {v : Int} (h : add_preset env m p = (.ok v, m2))
    (hn : (m.presets.map Preset.id).Nodup) :
    (m2.presets.map Preset.id).Nodup := by
  obtain ⟨m1, p1, hm1, -, hfresh, -, hm2⟩ := add_preset_ok_shape h
  have hn1 := refresh_cache_ok_nodup hm1 hn
  subst hm2
  simp only [List.map_append, List.map_cons, List.map_nil]
  rw [List.nodup_append]
  exact ⟨hn1, List.nodup_singleton _,
    by simpa [List.disjoint_singleton] using hfresh⟩

/-- A successful `update_preset` preserves id-uniqueness of the cache. -/
theorem update_preset_ok_nodup {env : Env} {m m2 : PresetManager}
    {p : Preset} {v : Int} (h : update_preset env m p = (.ok v, m2))
    (hn : (m.presets.map Preset.id).Nodup) :
    (m2.presets.map Preset.id).Nodup := by
  obtain ⟨m1, k, hm1, -, hk, -, hm2⟩ := update_preset_ok_shape h
  have hn1 := refresh_cache_ok_nodup hm1 hn
  subst hm2
  obtain ⟨hlt, hpk, -⟩ := List.findIdx?_eq_some_iff_getElem.1 hk
  have hid : (m1.presets[k]).id = p.id := by simpa using hpk
  have hset : (m1.presets.set k p).map Preset.id =
      (m1.presets.map Preset.id).set k p.id := List.map_set
  rw [hset, ← hid]
  have hkk : k < (m1.presets.map Preset.id).length := by simpa using hlt
  have hge : (m1.presets.map Preset.id)[k] = (m1.presets[k]).id := by simp
  rw [← hge, set_getElem_self _ _ hkk]
  exact hn1

/-- A successful `delete_preset` preserves id-uniqueness of the cache. -/
theorem delete_preset_ok_nodup {env : Env} {m m2 : PresetManager} {i : Int}
    {v : Int} (h : delete_preset env m i = (.ok v, m2))
    (hn : (m.presets.map Preset.id).Nodup) :
    (m2.presets.map Preset.id).Nodup := by
  obtain ⟨m1, k, hm1, -, -, -, hm2⟩ := delete_preset_ok_shape h
  have hn1 := refresh_cache_ok_nodup hm1 hn
  subst hm2
  exact List.Nodup.sublist
    ((List.eraseIdx_sublist m1.presets k).map Preset.id) hn1

/-- A successful mutating operation preserves id-uniqueness. -/
theorem runOp_ok_nodup {e : Env} {o : StoreOp} {m : PresetManager}
    (h : callOk (runOp e o m).1 = true)
    (hn : (m.presets.map Preset.id).Nodup) :
    ((runOp e o m).2.presets.map Preset.id).Nodup := by
  match o with
  | .add p =>
    match hr : add_preset e m p with
    | (.ok v, m2) => simpa [runOp, hr] using add_preset_ok_nodup hr hn
    | (.error er, m2) => simp [runOp, hr, callOk] at h
  | .update p =>
    match hr : update_preset e m p with
    | (.ok v, m2) => simpa [runOp, hr] using update_preset_ok_nodup hr hn
    | (.error er, m2) => simp [runOp, hr, callOk] at h
  | .delete i =>
    match hr : delete_preset e m i with
    | (.ok v, m2) => simpa [runOp, hr] using delete_preset_ok_nodup hr hn
    | (.error er, m2) => simp [runOp, hr, callOk] at h

/-- A sequence of successful mutating operations preserves id-uniqueness. -/
theorem runSeq_nodup (steps : List (Env × StoreOp)) (m0 : PresetManager)
    (hn : (m0.presets.map Preset.id).Nodup) (hok : seqOk steps m0 = true) :
    ((runSeq steps m0).presets.map Preset.id).Nodup := by
  induction steps generalizing m0 with
  | nil => exact hn
  | cons s rest ih =>
    rw [seqOk, Bool.and_eq_true] at hok
    exact ih _ (runOp_ok_nodup hok.1 hn) hok.2

/-- Serializing a collection with `_write_on_file` and re-parsing it with
`parse_obj_as(list[Preset], ·)` is the identity. -/
theorem parse_write_roundtrip (ps : List Preset) :
    parseObjAsPresetList (ps.map Preset.model_dump) = some ps := by
  induction ps with
  | nil => rfl
  | cons p rest ih =>
    simp only [parseObjAsPresetList, List.map_cons, List.mapM_cons] at ih ⊢
    rw [show Preset.validate (Preset.model_dump p) = some p from rfl]
    simp only [ih]
    rfl

/-- C2: for every sequence of successful add/update/delete operations
starting from a store whose cache has pairwise-distinct ids, the
collection returned by `load_presets` (list) never contains two records
with the same id. -/
theorem C2_list_ids_nodup (steps : List (Env × StoreOp)) (m0 : PresetManager)
    (h0 : (m0.presets.map Preset.id).Nodup) (hok : seqOk steps m0 = true)
    (env : Env) (l : List Preset) (m3 : PresetManager)
    (hload : load_presets env (runSeq steps m0) = (.ok l, m3)) :
    (l.map Preset.id).Nodup := by
  have hn := runSeq_nodup steps m0 h0 hok
  cases hm1 : refresh_cache env (runSeq steps m0) with
  | error e => simp only [load_presets, hm1] at hload; simp at hload
  | ok m1 =>
    simp only [load_presets, hm1, Prod.mk.injEq, Except.ok.injEq] at hload
    rw [← hload.1]
    exact refresh_cache_ok_nodup hm1 hn

/-- Witness for C2 at a concrete run: one successful add on a one-record
store, then list. -/
theorem C2_list_ids_nodup_witness :
    (([presetA, presetB].map Preset.id).Nodup) :=
  C2_list_ids_nodup [(⟨some 5, .doc [], none⟩, .add presetB)]
    ⟨[presetA], 5⟩ (by decide) (by decide) ⟨some 5, .doc [], none⟩
    [presetA, presetB] ⟨[presetA, presetB], 5⟩ (by decide)

/-- C4: counterexample — reconcile over a file whose content parses to an
empty collection succeeds with an empty cache, instead of failing with
StoreCorrupt as the claim states. -/
theorem C4_empty_collection_counterexample :
    refresh_cache ⟨some 1, .doc [], none⟩ PresetManager.new =
      .ok { presets := [], last_modified_time := 1 } := by decide

/-- C4 (amended): during reconcile with a changed modification time, a
null/empty document fails with PresetInternalError (StoreCorrupt), but a
file parsing to an empty collection is accepted and yields an empty
cache. -/
theorem C4_null_doc_rejected_empty_list_accepted (env : Env)
    (m : PresetManager) (t : ℚ) (hstat : env.statResult = some t)
    (hne : t ≠ m.last_modified_time) :
    (env.readContent = .nullDoc →
      refresh_cache env m =
        .error (.presetInternalError "プリセットの設定ファイルが空の内容です")) ∧
    (env.readContent = .doc [] →
      refresh_cache env m = .ok { presets := [], last_modified_time := t }) := by
  constructor <;> intro hc <;>
    simp [refresh_cache, hstat, hc, hne, parseObjAsPresetList, List.mapM,
      List.mapM.loop]

/-- Witness for C4's amended statement at a concrete store. -/
theorem C4_null_doc_rejected_empty_list_accepted_witness :
    refresh_cache ⟨some 1, .nullDoc, none⟩ PresetManager.new =
      .error (.presetInternalError "プリセットの設定ファイルが空の内容です") :=
  (C4_null_doc_rejected_empty_list_accepted ⟨some 1, .nullDoc, none⟩
    PresetManager.new 1 rfl (by decide)).1 rfl

/-- C6: on a non-empty (fresh) cache with a successful write, add with a
negative id assigns and returns `max(existing ids) + 1`; add with a
colliding id also assigns and returns `max(existing ids) + 1` instead of
failing; a non-negative, non-colliding caller-supplied id is kept and
returned unchanged. -/
theorem C6_add_id_assignment (env : Env) (m : PresetManager) (p : Preset)
    (w : Int) (hstat : env.statResult = some m.last_modified_time)
    (hw : env.writeError = none)
    (hmax : pyMax (m.presets.map Preset.id) = .ok w) :
    (p.id < 0 →
      add_preset env m p =
        (.ok (w + 1),
         { m with presets := m.presets ++ [{ p with id := w + 1 }] })) ∧
    (p.id ∈ m.presets.map Preset.id →
      add_preset env m p =
        (.ok (w + 1),
         { m with presets := m.presets ++ [{ p with id := w + 1 }] })) ∧
    (0 ≤ p.id → p.id ∉ m.presets.map Preset.id →
      add_preset env m p = (.ok p.id, { m with presets := m.presets ++ [p] })) := by
  have hfresh : refresh_cache env m = .ok m := by
    simp [refresh_cache, hstat]
  refine ⟨?_, ?_, ?_⟩
  · intro hid
    have hcond : p.id < 0 ∨ p.id ∈ m.presets.map Preset.id := .inl hid
    simp only [add_preset, hfresh]
    rw [if_pos hcond]
    simp [hmax, Except.map, hw]
  · intro hid
    have hcond : p.id < 0 ∨ p.id ∈ m.presets.map Preset.id := .inr hid
    simp only [add_preset, hfresh]
    rw [if_pos hcond]
    simp [hmax, Except.map, hw]
  · intro hge hnot
    have hcond : ¬(p.id < 0 ∨ p.id ∈ m.presets.map Preset.id) := by
      rw [not_or]
      exact ⟨not_lt.2 hge, hnot⟩
    simp only [add_preset, hfresh]
    rw [if_neg hcond]
    simp [hw]

/-- Witness for C6 at a concrete two-record store, exercising the
reassignment branch for a negative caller id. -/
theorem C6_add_id_assignment_witness :
    add_preset ⟨some 5, .doc [], none⟩ ⟨[presetA, presetB], 5⟩
      { presetA with id := -1, name := "C" } =
      (.ok 2, ⟨[presetA, presetB, { presetA with id := 2, name := "C" }], 5⟩) :=
  (C6_add_id_assignment ⟨some 5, .doc [], none⟩ ⟨[presetA, presetB], 5⟩
    { presetA with id := -1, name := "C" } 1 rfl rfl (by decide)).1 (by decide)

/-- C7: counterexample — on an empty store, add with id = -1 raises
ValueError (Python `max()` over an empty sequence) instead of returning a
base id 0, and nothing is added. -/
theorem C7_empty_store_add_counterexample :
    add_preset ⟨some 0, .doc [], none⟩ PresetManager.new
      { presetA with id := -1 } =
      (.error (.pyError .valueError), PresetManager.new) := by decide

/-- C7 (amended): on an empty (fresh) store, add with a negative id fails
with the ValueError raised by `max()` over the empty id sequence and
leaves the store unchanged; the code defines no base id. -/
theorem C7_empty_store_add_raises (env : Env) (m : PresetManager)
    (p : Preset) (hstat : env.statResult = some m.last_modified_time)
    (hempty : m.presets = []) (hid : p.id < 0) :
    add_preset env m p = (.error (.pyError .valueError), m) := by
  have hfresh : refresh_cache env m = .ok m := by
    simp [refresh_cache, hstat]
  have hcond : p.id < 0 ∨ p.id ∈ m.presets.map Preset.id := .inl hid
  simp only [add_preset, hfresh]
  rw [if_pos hcond]
  simp [hempty, pyMax, Except.map]

/-- Witness for C7's amended statement at a concrete empty store. -/
theorem C7_empty_store_add_raises_witness :
    add_preset ⟨some 3, .notAList, some (.otherError 2)⟩ ⟨[], 3⟩
      { presetB with id := -5 } =
      (.error (.pyError .valueError), ⟨[], 3⟩) :=
  C7_empty_store_add_raises ⟨some 3, .notAList, some (.otherError 2)⟩
    ⟨[], 3⟩ { presetB with id := -5 } rfl rfl (by decide)

/-- C8: update and delete with an id not present in the cache after
reconcile raise PresetInputError (a client-input error, distinct from the
store-fault PresetInternalError) and leave the post-reconcile cache —
hence list's result — unchanged. -/
theorem C8_not_found_non_mutating (env : Env) (m m1 : PresetManager)
    (p : Preset) (i : Int) (href : refresh_cache env m = .ok m1) :
    (p.id ∉ m1.presets.map Preset.id →
      update_preset env m p =
        (.error (.presetInputError "更新先のプリセットが存在しません"), m1)) ∧
    (i ∉ m1.presets.map Preset.id →
      delete_preset env m i =
        (.error (.presetInputError "削除対象のプリセットが存在しません"), m1)) := by
  constructor
  · intro hnot
    have hk : m1.presets.findIdx? (fun q => q.id == p.id) = none := by
      rw [List.findIdx?_eq_none_iff]
      intro q hq
      simpa using fun hqe => hnot (List.mem_map.2 ⟨q, hq, hqe⟩)
    simp [update_preset, href, hk]
  · intro hnot
    have hk : m1.presets.findIdx? (fun q => q.id == i) = none := by
      rw [List.findIdx?_eq_none_iff]
      intro q hq
      simpa using fun hqe => hnot (List.mem_map.2 ⟨q, hq, hqe⟩)
    simp [delete_preset, href, hk]

/-- Witness for C8 at a concrete one-record store and the absent id 9. -/
theorem C8_not_found_non_mutating_witness :
    delete_preset ⟨some 5, .doc [], none⟩ ⟨[presetA], 5⟩ 9 =
      (.error (.presetInputError "削除対象のプリセットが存在しません"),
       ⟨[presetA], 5⟩) :=
  (C8_not_found_non_mutating ⟨some 5, .doc [], none⟩ ⟨[presetA], 5⟩
    ⟨[presetA], 5⟩ presetB 9 (by decide)).2 (by decide)

/-- C1 (code bug): the claim requires full in-memory rollback before any
persistence error is raised, in all three mutating operations.
`add_preset` (line 138, `except Exception`) and `update_preset` (line 174,
`except Exception`) do roll back on an arbitrary write error, but
`delete_preset` (line 203) guards the write with `except
FileNotFoundError` only: on any other write error it propagates the error
with the entry still missing from the cache.  Evaluated on a one-record
store and a generic (non-file-not-found) write error. -/
theorem C1_delete_rollback_missing :
    (delete_preset ⟨some 5, .doc [], some (.otherError 0)⟩ ⟨[presetA], 5⟩ 0 =
       (.error (.pyError (.otherError 0)), ⟨[], 5⟩) ∧
     ((⟨[], 5⟩ : PresetManager) ≠ ⟨[presetA], 5⟩)) ∧
    add_preset ⟨some 5, .doc [], some (.otherError 0)⟩ ⟨[presetA], 5⟩
      presetB =
      (.error (.pyError (.otherError 0)), ⟨[presetA], 5⟩) ∧
    update_preset ⟨some 5, .doc [], some (.otherError 0)⟩ ⟨[presetA], 5⟩
      { presetA with name := "Z" } =
      (.error (.pyError (.otherError 0)), ⟨[presetA], 5⟩) := by decide

/-- C9: persisting a collection of records with pairwise-distinct ids and
then reconciling a fresh store over the same file yields an equal
collection — same ids, same field values, same order. -/
theorem C9_roundtrip (ps : List Preset) (t : ℚ) (env : Env)
    (hstat : env.statResult = some t) (ht : t ≠ 0)
    (hread : env.readContent = write_on_file ps)
    (hids : (ps.map Preset.id).Nodup) :
    load_presets env PresetManager.new =
      (.ok ps, { presets := ps, last_modified_time := t }) := by
  have hparse := parse_write_roundtrip ps
  have hdedup : (ps.map Preset.id).dedup = ps.map Preset.id :=
    List.dedup_eq_self.2 hids
  have href : refresh_cache env PresetManager.new =
      .ok { presets := ps, last_modified_time := t } := by
    simp [refresh_cache, hstat, hread, write_on_file, PresetManager.new,
      ht, hparse, hdedup]
  simp [load_presets, href]

/-- Witness for C9 at a concrete two-record collection. -/
theorem C9_roundtrip_witness :
    load_presets ⟨some 2, write_on_file [presetA, presetB], none⟩
      PresetManager.new =
      (.ok [presetA, presetB],
       { presets := [presetA, presetB], last_modified_time := 2 }) :=
  C9_roundtrip [presetA, presetB] 2
    ⟨some 2, write_on_file [presetA, presetB], none⟩ rfl (by decide) rfl
    (by decide)

/-- C3: counterexample — constructing a record with speedScale = 100
(outside 0.5–2.0) and prePhonemeLength = -1 (< 0) succeeds: the pydantic
model declares no range constraints, so no per-field range error is
raised at construction time. -/
theorem C3_out_of_range_accepted_counterexample :
    Preset.validate ⟨some 0, some "A", some "uuid-a", some 1, some 100,
        some 1, some 1, some 0, some 1, some (-1), some 0⟩ =
      some ⟨0, "A", "uuid-a", 1, 100, 1, 1, 0, 1, -1, 0⟩ := rfl

/-- C3 (amended): record construction checks only field presence (with
`tempoDynamicsScale` defaulting), never numeric ranges: construction
succeeds for every combination of numeric values, including values
outside the documented ranges. -/
theorem C3_no_range_validation (i : Int) (n su : String) (st : Int)
    (sp itn td pit vo pre post : ℚ)
    (hout : sp < 1/2 ∨ 2 < sp ∨ pit < -(3/20) ∨ 3/20 < pit ∨ pre < 0) :
    Preset.validate ⟨some i, some n, some su, some st, some sp, some itn,
        some td, some pit, some vo, some pre, some post⟩ =
      some ⟨i, n, su, st, sp, itn, td, pit, vo, pre, post⟩ := rfl

/-- Witness for C3's amended statement at speedScale = 100. -/
theorem C3_no_range_validation_witness :
    Preset.validate ⟨some 0, some "B", some "u", some 1, some 100, some 1,
        some 1, some 0, some 1, some 0, some 0⟩ =
      some ⟨0, "B", "u", 1, 100, 1, 1, 0, 1, 0, 0⟩ :=
  C3_no_range_validation 0 "B" "u" 1 100 1 1 0 1 0 0
    (Or.inr (Or.inl (by norm_num)))

/-- Mutating a list object in place is visible through the same address. -/
theorem PyHeap.getList_setList_self (h : PyHeap) (a : Nat) (l : List Nat)
    (ha : a < h.listCells.length) : (h.setList a l).getList a = l := by
  unfold PyHeap.getList PyHeap.setList
  rw [List.getD_eq_getElem _ _ (by simpa using ha)]
  simp

/-- Mutating a preset object in place is visible through the same
address. -/
theorem PyHeap.getPreset_setPreset_self (h : PyHeap) (a : Nat) (p : Preset)
    (ha : a < h.presetCells.length) : (h.setPreset a p).getPreset a = p := by
  unfold PyHeap.getPreset PyHeap.setPreset
  rw [List.getD_eq_getElem _ _ (by simpa using ha)]
  simp

/-- Mutating a list object leaves every preset object unchanged. -/
theorem PyHeap.getPreset_setList (h : PyHeap) (a b : Nat) (l : List Nat) :
    (h.setList b l).getPreset a = h.getPreset a := rfl

/-- A successful object-level refresh keeps the cache reference valid,
only grows the preset heap, and leaves every pre-existing preset object
unchanged. -/
theorem refresh_cache_obj_ok {env : Env} {h h1 : PyHeap}
    {m m1 : PresetManagerObj}
    (hr : refresh_cache_obj env h m = (.ok (), h1, m1))
    (hv : m.presetsRef < h.listCells.length) :
    m1.presetsRef < h1.listCells.length ∧
    h.presetCells.length ≤ h1.presetCells.length ∧
    ∀ a, a < h.presetCells.length → h1.getPreset a = h.getPreset a := by
  unfold refresh_cache_obj at hr
  split at hr
  · simp at hr
  · split at hr
    · simp only [Prod.mk.injEq] at hr
      obtain ⟨-, hh, hm⟩ := hr
      subst hh; subst hm
      exact ⟨hv, le_refl _, fun a _ => rfl⟩
    · split at hr
      · simp at hr
      · simp at hr
      · simp at hr
      · split at hr
        · simp at hr
        · split at hr
          · simp at hr
          · simp only [PyHeap.allocPresets, PyHeap.allocList,
              Prod.mk.injEq] at hr
            obtain ⟨-, hh, hm⟩ := hr
            subst hh; subst hm
            refine ⟨by simp, by simp, fun a haa => ?_⟩
            unfold PyHeap.getPreset
            simp only []
            rw [List.getD_append _ _ _ _ haa]

/-- C5: counterexample — `load_presets` hands back the cache list object
itself (address 0), and appending through the returned reference changes
the store's cache, contradicting the claimed snapshot (copy) semantics. -/
theorem C5_snapshot_counterexample :
    load_presets_obj ⟨some 5, .doc [], none⟩ ⟨[presetA], [[0]]⟩ ⟨0, 5⟩ =
      (.ok 0, ⟨[presetA], [[0]]⟩, ⟨0, 5⟩) ∧
    ((⟨[presetA], [[0]]⟩ : PyHeap).setList 0
        (((⟨[presetA], [[0]]⟩ : PyHeap).getList 0) ++ [3])).getList
        (⟨0, 5⟩ : PresetManagerObj).presetsRef ≠
      (⟨[presetA], [[0]]⟩ : PyHeap).getList
        (⟨0, 5⟩ : PresetManagerObj).presetsRef := by decide

/-- C5 (amended): `load_presets` returns the cache list itself, not a
copy: on success the returned reference is the manager's cache reference
(hence trivially element-for-element equal to the cache), and a mutation
performed through the returned reference is visible in the cache; on
failure the raised error and resulting state are exactly those of the
reconcile step. -/
theorem C5_list_returns_cache_alias (env : Env) (h : PyHeap)
    (m : PresetManagerObj) (hv : m.presetsRef < h.listCells.length) :
    (∀ r h1 m1, load_presets_obj env h m = (.ok r, h1, m1) →
      r = m1.presetsRef ∧
      ∀ b, (h1.setList r ((h1.getList r) ++ [b])).getList m1.presetsRef =
        (h1.getList m1.presetsRef) ++ [b]) ∧
    (∀ e h1 m1, load_presets_obj env h m = (.error e, h1, m1) →
      refresh_cache_obj env h m = (.error e, h1, m1)) := by
  constructor
  · intro r h1 m1 hl
    rcases hr : refresh_cache_obj env h m with ⟨res, hh, mm⟩
    cases res with
    | error e => simp only [load_presets_obj, hr] at hl; simp at hl
    | ok u =>
      cases u
      obtain ⟨hv1, -, -⟩ := refresh_cache_obj_ok hr hv
      simp only [load_presets_obj, hr, Prod.mk.injEq,
        Except.ok.injEq] at hl
      obtain ⟨hrr, hhh, hmm⟩ := hl
      subst hrr; subst hhh; subst hmm
      exact ⟨rfl, fun b => PyHeap.getList_setList_self _ _ _ hv1⟩
  · intro e h1 m1 hl
    rcases hr : refresh_cache_obj env h m with ⟨res, hh, mm⟩
    cases res with
    | error e2 =>
      simp only [load_presets_obj, hr, Prod.mk.injEq,
        Except.error.injEq] at hl
      obtain ⟨he, hhh, hmm⟩ := hl
      subst he; subst hhh; subst hmm
      rfl
    | ok u => cases u; simp only [load_presets_obj, hr] at hl; simp at hl

/-- Witness for C5's amended statement: appending through the reference
returned by `load_presets` over a concrete one-record store is visible in
the store's cache. -/
theorem C5_list_returns_cache_alias_witness :
    ((⟨[presetA], [[0]]⟩ : PyHeap).setList 0
        (((⟨[presetA], [[0]]⟩ : PyHeap).getList 0) ++ [3])).getList
        (⟨0, 5⟩ : PresetManagerObj).presetsRef =
      ((⟨[presetA], [[0]]⟩ : PyHeap).getList
        (⟨0, 5⟩ : PresetManagerObj).presetsRef) ++ [3] :=
  ((C5_list_returns_cache_alias ⟨some 5, .doc [], none⟩ ⟨[presetA], [[0]]⟩
      ⟨0, 5⟩ (by decide)).1 0 ⟨[presetA], [[0]]⟩ ⟨0, 5⟩ (by decide)).2 3

/-- C10: a successful add appends the caller's record object itself to
the cache (when reassignment occurs the id is assigned on the
caller-supplied object before the append) and alters no field other than
the id: after the call the caller's object equals its pre-call value with
at most the id replaced by the returned id. -/
theorem C10_add_appends_caller_object (env : Env) (h : PyHeap)
    (m : PresetManagerObj) (a : Nat) (rid : Int) (h2 : PyHeap)
    (m2 : PresetManagerObj) (ha : a < h.presetCells.length)
    (hv : m.presetsRef < h.listCells.length)
    (hok : add_preset_obj env h m a = (.ok rid, h2, m2)) :
    h2.getPreset a = { h.getPreset a with id := rid } ∧
    ∃ pre, h2.getList m2.presetsRef = pre ++ [a] := by
  rcases hr : refresh_cache_obj env h m with ⟨res, hh, mm⟩
  cases res with
  | error e => simp only [add_preset_obj, hr] at hok; simp at hok
  | ok u =>
    cases u
    obtain ⟨hv1, hlen, hpres⟩ := refresh_cache_obj_ok hr hv
    have ha1 : a < hh.presetCells.length := lt_of_lt_of_le ha hlen
    simp only [add_preset_obj, hr] at hok
    by_cases hcond : (hh.getPreset a).id < 0 ∨ (hh.getPreset a).id ∈
        List.map (fun b => (hh.getPreset b).id) (hh.getList mm.presetsRef)
    · rw [if_pos hcond] at hok
      cases hmax : pyMax (List.map (fun b => (hh.getPreset b).id)
          (hh.getList mm.presetsRef)) with
      | error e => simp only [hmax, Except.map] at hok; simp at hok
      | ok w =>
        simp only [hmax, Except.map] at hok
        cases hw : env.writeError with
        | none =>
          rw [PyHeap.getPreset_setPreset_self hh a _ ha1] at hok
          simp only [hw, Prod.mk.injEq, Except.ok.injEq] at hok
          obtain ⟨hrid, hh2, hm2⟩ := hok
          subst hrid; subst hh2; subst hm2
          constructor
          · rw [PyHeap.getPreset_setList,
              PyHeap.getPreset_setPreset_self hh a _ ha1, hpres a ha]
          · refine ⟨hh.getList mm.presetsRef, ?_⟩
            exact PyHeap.getList_setList_self _ _ _ (by simpa using hv1)
        | some e => cases e <;> (simp only [hw] at hok; simp at hok)
    · rw [if_neg hcond] at hok
      cases hw : env.writeError with
      | none =>
        simp only [hw, Prod.mk.injEq, Except.ok.injEq] at hok
        obtain ⟨hrid, hh2, hm2⟩ := hok
        subst hrid; subst hh2; subst hm2
        constructor
        · rw [PyHeap.getPreset_setList, hpres a ha]
        · refine ⟨hh.getList mm.presetsRef, ?_⟩
          exact PyHeap.getList_setList_self _ _ _ hv1
      | some e => cases e <;> (simp only [hw] at hok; simp at hok)

/-- Witness for C10 at a concrete store where the caller's id 0 collides
with an existing record: the caller's object is mutated to the fresh id 1
and its address is appended to the cache. -/
theorem C10_add_appends_caller_object_witness :
    (⟨[presetA, { presetB with id := 1 }], [[0, 1]]⟩ : PyHeap).getPreset 1 =
      { (⟨[presetA, { presetB with id := 0 }], [[0]]⟩ : PyHeap).getPreset 1
        with id := 1 } ∧
    ∃ pre, (⟨[presetA, { presetB with id := 1 }], [[0, 1]]⟩ :
        PyHeap).getList (⟨0, 5⟩ : PresetManagerObj).presetsRef = pre ++ [1] :=
  C10_add_appends_caller_object ⟨some 5, .doc [], none⟩
    ⟨[presetA, { presetB with id := 0 }], [[0]]⟩ ⟨0, 5⟩ 1 1
    ⟨[presetA, { presetB with id := 1 }], [[0, 1]]⟩ ⟨0, 5⟩
    (by decide) (by decide) (by decide)
